import Mathlib

/-!
Verification of `ratatoskr/app/calendarutil.py` (the Event Identity & Sync
Adapter of the Ratatoskr scheduling application).

The module is glue code between application records (Schedule, Timeslot,
Reservation) and the Google Calendar API.  We embed:

* the derived event-identifier pipeline (`hashify`, `build_timeslot_event_id`)
  including a full executable SHA-1 over byte lists (machine words are `Nat`
  reduced `% 2 ^ 32` where overflow matters);
* the provider-facing operations (`create_calendar_for_schedule`,
  `delete_calendar_for_schedule`, `update_timeslot_event`,
  `delete_timeslot_event`) as pure functions from an environment describing
  the provider's responses to the list of API requests actually executed
  (the trace) together with the returned value or raised `HttpError`.

Third-party datetime handling (`pytz`, Django's `make_aware`, `isoformat`)
is out of scope of the module's design; it is embedded structurally: a
datetime is a naive instant plus an optional timezone tag, and `isoformat`
is an injective rendering of that pair.
-/

/-! ## Python decimal rendering of nonnegative integers (`str(n)` / `%s`) -/

/-- The decimal digit character for `d < 10`: `'0'` is code point 48. -/
def digitChar10 (d : Nat) : Char := Char.ofNat (48 + d)

/-- Core decimal rendering, structurally recursive on a fuel argument
(`n + 1` is always enough fuel, since `n / 10 < n` for `n ≥ 10`). -/
def natDigitsCore : Nat → Nat → List Char
  | 0, _ => []
  | fuel + 1, n =>
      if n < 10 then [digitChar10 n]
      else natDigitsCore fuel (n / 10) ++ [digitChar10 (n % 10)]

/-- Decimal digits of `n`, most significant first, as Python's `str` renders a
nonnegative `int`. -/
def natDigits (n : Nat) : List Char := natDigitsCore (n + 1) n

/-- Python's `str` on a nonnegative integer. -/
def pyStr (n : Nat) : String := String.mk (natDigits n)

/-! ## SHA-1 over byte lists (each byte a `Nat < 256`), words as `Nat % 2^32` -/

/-- Truncate to a 32-bit word. -/
def w32 (n : Nat) : Nat := n % 2 ^ 32

/-- Left-rotate the 32-bit word `n` by `k` bits. -/
def rotl32 (k n : Nat) : Nat :=
  w32 ((n * 2 ^ k) + (n % 2 ^ 32) / 2 ^ (32 - k))

/-- Big-endian 32-bit words from a list of bytes (groups of four). -/
def bytesToWords : List Nat → List Nat
  | b0 :: b1 :: b2 :: b3 :: rest =>
      (b0 * 2 ^ 24 + b1 * 2 ^ 16 + b2 * 2 ^ 8 + b3) :: bytesToWords rest
  | _ => []

/-- SHA-1 padding: append the `0x80` byte, then zeros, then the 64-bit
big-endian bit length, so the total length is a multiple of 64 bytes. -/
def sha1Pad (msg : List Nat) : List Nat :=
  let r := msg.length % 64
  let zeros := (119 - r) % 64
  let L := msg.length * 8
  msg ++ 0x80 :: List.replicate zeros 0 ++
    [L / 2 ^ 56 % 256, L / 2 ^ 48 % 256, L / 2 ^ 40 % 256, L / 2 ^ 32 % 256,
     L / 2 ^ 24 % 256, L / 2 ^ 16 % 256, L / 2 ^ 8 % 256, L % 256]

/-- Core block splitting, structurally recursive on a fuel argument (the
list length is always enough fuel, since each step drops 64 ≥ 1 elements). -/
def toBlocksCore : Nat → List Nat → List (List Nat)
  | 0, _ => []
  | fuel + 1, l =>
      if l = [] then [] else l.take 64 :: toBlocksCore fuel (l.drop 64)

/-- Split a byte list into 64-byte blocks. -/
def toBlocks (l : List Nat) : List (List Nat) := toBlocksCore l.length l

/-- Extend the 16 words of a block to the 80-word message schedule. -/
def sha1Extend (ws : List Nat) : List Nat :=
  (List.range 64).foldl
    (fun acc _ =>
      let n := acc.length
      acc ++ [rotl32 1 ((((acc.getD (n - 3) 0).xor (acc.getD (n - 8) 0)).xor
        (acc.getD (n - 14) 0)).xor (acc.getD (n - 16) 0))])
    ws

/-- The running SHA-1 hash state: five 32-bit words. -/
structure SHA1State where
  h0 : Nat
  h1 : Nat
  h2 : Nat
  h3 : Nat
  h4 : Nat
  deriving DecidableEq

/-- Initial SHA-1 state. -/
def sha1Init : SHA1State :=
  ⟨0x67452301, 0xEFCDAB89, 0x98BADCFE, 0x10325476, 0xC3D2E1F0⟩

/-- The SHA-1 round function `f` for round `i`. -/
def sha1F (i b c d : Nat) : Nat :=
  if i < 20 then (b.land c).lor ((2 ^ 32 - 1 - b % 2 ^ 32).land d)
  else if i < 40 then (b.xor c).xor d
  else if i < 60 then ((b.land c).lor (b.land d)).lor (c.land d)
  else (b.xor c).xor d

/-- The SHA-1 round constant `K` for round `i`. -/
def sha1K (i : Nat) : Nat :=
  if i < 20 then 0x5A827999
  else if i < 40 then 0x6ED9EBA1
  else if i < 60 then 0x8F1BBCDC
  else 0xCA62C1D6

/-- One SHA-1 round: update `(a, b, c, d, e)` with word `wi` of round `i`. -/
def sha1Round (st : SHA1State) (iw : Nat × Nat) : SHA1State :=
  let a := st.h0; let b := st.h1; let c := st.h2; let d := st.h3; let e := st.h4
  let temp := w32 (rotl32 5 a + sha1F iw.1 b c d + e + sha1K iw.1 + iw.2)
  ⟨temp, a, rotl32 30 b, c, d⟩

/-- Process one 64-byte block into the running state. -/
def sha1Block (st : SHA1State) (block : List Nat) : SHA1State :=
  let ws := sha1Extend (bytesToWords block)
  let r := ws.enum.foldl sha1Round st
  ⟨w32 (st.h0 + r.h0), w32 (st.h1 + r.h1), w32 (st.h2 + r.h2),
   w32 (st.h3 + r.h3), w32 (st.h4 + r.h4)⟩

/-- The SHA-1 digest state of a byte-list message. -/
def sha1Words (msg : List Nat) : SHA1State :=
  (toBlocks (sha1Pad msg)).foldl sha1Block sha1Init

/-- The lowercase hexadecimal character for a nibble `n < 16`
(`'a'` is code point 97). -/
def hexDigitChar (n : Nat) : Char :=
  if n < 10 then Char.ofNat (48 + n) else Char.ofNat (87 + n)

/-- The eight nibbles of a 32-bit word, most significant first. -/
def wordNibbles (x : Nat) : List Nat :=
  [x / 2 ^ 28 % 16, x / 2 ^ 24 % 16, x / 2 ^ 20 % 16, x / 2 ^ 16 % 16,
   x / 2 ^ 12 % 16, x / 2 ^ 8 % 16, x / 2 ^ 4 % 16, x % 16]

/-- The forty nibbles of a SHA-1 state. -/
def stateNibbles (st : SHA1State) : List Nat :=
  wordNibbles st.h0 ++ wordNibbles st.h1 ++ wordNibbles st.h2 ++
    wordNibbles st.h3 ++ wordNibbles st.h4

/-- `hashlib.sha1(msg).hexdigest()`: the 40 lowercase hexadecimal characters
of the digest. -/
def sha1Hexdigest (msg : List Nat) : String :=
  String.mk ((stateNibbles (sha1Words msg)).map hexDigitChar)

/-- `bytes(s, "ascii")`: the code points of the characters (all inputs in
this module are ASCII). -/
def asciiBytes (s : String) : List Nat := s.data.map Char.toNat

/-- Python's `str.lower()`: lowercase each character. -/
def pyLower (s : String) : String := String.mk (s.data.map Char.toLower)

/-! ## The identifier derivation (source lines 23-36) -/

/-- `CALENDAR_ID_SUFFIX` constant of the source. -/
def CALENDAR_ID_SUFFIX : String := "ratatoskr.techhigh.us"

/-- `CALENDAR_TIMESLOT_EVENT_ID % {...}`: the `%`-interpolation of the
pattern `"%(timeslot_id)s@%(schedule_id)s#" + CALENDAR_ID_SUFFIX` at the
already-rendered id strings. -/
def calendarTimeslotEventIdFmt (timeslot_id schedule_id : String) : String :=
  timeslot_id ++ "@" ++ schedule_id ++ "#" ++ CALENDAR_ID_SUFFIX

/-- `hashify` (source lines 27-28): SHA-1 of the ASCII bytes, hex-encoded,
lowercased. -/
def hashify (s : String) : String := pyLower (sha1Hexdigest (asciiBytes s))

/-! ## Application data model (Schedule, Timeslot, Reservation) -/

/-- Conference-data blob: an opaque provider JSON object, modelled as an
association list; Python's `{}` is `[]`. -/
def ConfData := List (String × String)
deriving DecidableEq

/-- The empty dict `{}`. -/
def ConfData.empty : ConfData := []

/-- A datetime value: an abstract naive instant plus an optional timezone
tag (`none` = naive, as after `replace(tzinfo=None)`). -/
structure DT where
  naive : Nat
  tzinfo : Option String
  deriving DecidableEq

/-- `dt.replace(tzinfo=...)`. -/
def DT.replaceTzinfo (dt : DT) (tz : Option String) : DT :=
  { dt with tzinfo := tz }

/-- `pytz.timezone(zone).localize(dt)`: attach the zone to a naive datetime. -/
def pytzLocalize (zone : String) (dt : DT) : DT :=
  { dt with tzinfo := some zone }

/-- Django's `make_aware(dt)`: attach the configured current timezone. -/
def make_aware (dt : DT) : DT :=
  { dt with tzinfo := some "CURRENT_TIMEZONE" }

/-- `dt + datetime.timedelta(...)` in seconds. -/
def DT.addSeconds (dt : DT) (s : Nat) : DT :=
  { dt with naive := dt.naive + s }

/-- `dt.isoformat()`: serialization of the datetime, modelled as an injective
rendering of the (naive instant, timezone) pair. -/
def DT.isoformat (dt : DT) : String :=
  pyStr dt.naive ++ (match dt.tzinfo with
    | none => ""
    | some z => "+" ++ z)

/-- A `Reservation` row: attendee email, display name, free-text comment. -/
structure Reservation where
  email : String
  name : String
  comment : String
  deriving DecidableEq

/-- A `Schedule` row: owner principal, name, stored provider calendar id and
stored conference-data blob. -/
structure Schedule where
  id : Nat
  owner : Nat
  name : String
  calendar_id : String
  calendar_meet_data : ConfData
  deriving DecidableEq

/-- A `Timeslot` row with its schedule and its current reservation set. -/
structure Timeslot where
  id : Nat
  schedule : Schedule
  time_from : DT
  time_to : DT
  reservation_set : List Reservation
  deriving DecidableEq

/-- `build_timeslot_event_id` (source lines 31-36): interpolate the two ids
into the pattern and hash. -/
def build_timeslot_event_id (timeslot : Timeslot) : String :=
  hashify (calendarTimeslotEventIdFmt (pyStr timeslot.id)
    (pyStr timeslot.schedule.id))

/-! ## Provider-facing operations

Each operation is embedded as a pure function of an `Env` describing the
provider's responses; it returns the list of API requests on which
`.execute()` was called (in order), paired with the Python outcome: the
returned value, or the raised `HttpError`. -/

/-- A provider error (`googleapiclient.errors.HttpError`). -/
structure HttpError where
  status_code : Nat
  deriving DecidableEq

/-- An attendee object of an event body. -/
structure Attendee where
  email : String
  displayName : String
  comment : String
  deriving DecidableEq

/-- One reminder override (`{"method": ..., "minutes": ...}`). -/
structure ReminderOverride where
  method : String
  minutes : Nat
  deriving DecidableEq

/-- The `reminders` object of a full event body. -/
structure Reminders where
  useDefault : Bool
  overrides : List ReminderOverride
  deriving DecidableEq

/-- The event body built by `update_timeslot_event` (source lines 128-162). -/
structure EventBody where
  summary : String
  location : String
  description : String
  startDateTime : String
  endDateTime : String
  conferenceData : ConfData
  attendees : List Attendee
  reminders : Reminders
  id : String
  deriving DecidableEq

/-- The dummy event body built by `create_calendar_for_schedule`
(source lines 66-86). -/
structure DummyEventBody where
  summary : String
  location : String
  description : String
  startDateTime : String
  endDateTime : String
  createRequestId : String
  attendees : List Attendee
  remindersUseDefault : Bool
  deriving DecidableEq

/-- The body of an `events().insert` / `events().patch` request. -/
inductive EventReqBody where
  | full (b : EventBody)
  | dummy (b : DummyEventBody)
  deriving DecidableEq

/-- The calendar body built by `create_calendar_for_schedule`
(source lines 57-66). -/
structure CalendarBody where
  summary : String
  description : String
  timeZone : String
  allowedConferenceSolutionTypes : List String
  deriving DecidableEq

/-- A provider API request.  A `Request` value is what `client....(...)`
builds; only requests on which `.execute()` is called enter the trace. -/
inductive Request where
  | calendarsInsert (body : CalendarBody)
  | calendarsDelete (calendarId : String)
  | eventsInsert (calendarId : String) (conferenceDataVersion : Nat)
      (body : EventReqBody)
  | eventsPatch (calendarId : String) (eventId : String)
      (conferenceDataVersion : Nat) (body : EventReqBody)
  | eventsDelete (calendarId : String) (eventId : String)
  deriving DecidableEq

/-- The provider environment: responses to the executed requests and the
ambient nondeterminism (clock, uuid). -/
structure Env where
  patchErr : Option HttpError
  insertErr : Option HttpError
  deleteErr : Option HttpError
  createdCalendarId : String
  createdEventId : String
  createdEventConfData : ConfData
  now : Nat
  now2 : Nat
  uuid : String
  deriving DecidableEq

/-- `build_calendar_client` (source lines 40-50): wraps the owner's
credentials; a capsule with no provider side effect. -/
def build_calendar_client (user : Nat) : Nat := user

/-- `create_calendar_for_schedule` (source lines 55-99): inserts the
calendar, inserts a dummy event, sets `conf_data = {}` (the extraction
`event["conferenceData"]` is commented out in the source), deletes the dummy
event, and returns `(conf_data, calendar_id)`. -/
def create_calendar_for_schedule (env : Env) (schedule : Schedule) :
    List Request × (ConfData × String) :=
  let _client := build_calendar_client schedule.owner
  let calendar_body : CalendarBody :=
    { summary := "Ratatoskr: " ++ schedule.name
      description := "Calendar generated by Ratatoskr. Please do not delete."
      timeZone := "UTC"
      allowedConferenceSolutionTypes := ["hangoutsMeet"] }
  let dummy_event_body : DummyEventBody :=
    { summary := "Ratatoskr Dummy Event"
      location := "Yggdrasil"
      description := "This event was only supposed to exist for a short time. If this event happened to stay, you are free to delete it."
      startDateTime := (make_aware ⟨env.now, none⟩).isoformat
      endDateTime := ((make_aware ⟨env.now2, none⟩).addSeconds 7200).isoformat
      createRequestId := env.uuid
      attendees := []
      remindersUseDefault := false }
  let calendar_id := env.createdCalendarId
  let event_id := env.createdEventId
  let conf_data : ConfData := ConfData.empty
  ([Request.calendarsInsert calendar_body,
    Request.eventsInsert calendar_id 1 (EventReqBody.dummy dummy_event_body),
    Request.eventsDelete calendar_id event_id],
   (conf_data, calendar_id))

/-- `delete_calendar_for_schedule` (source lines 101-103): builds the
calendars-delete request but never calls `.execute()` on it, so no request is
issued to the provider. -/
def delete_calendar_for_schedule (schedule : Schedule) :
    List Request × Unit :=
  let _client := build_calendar_client schedule.owner
  let _request := Request.calendarsDelete schedule.calendar_id
  ([], ())

/-- `delete_timeslot_event` (source lines 173-183): execute the delete at the
derived id; re-raise the `HttpError` unless its status is 404 or 410. -/
def delete_timeslot_event (env : Env) (timeslot : Timeslot) :
    List Request × Except HttpError Unit :=
  let _client := build_calendar_client timeslot.schedule.owner
  let _eventid := build_timeslot_event_id timeslot
  let req := Request.eventsDelete timeslot.schedule.calendar_id
    (build_timeslot_event_id timeslot)
  match env.deleteErr with
  | none => ([req], Except.ok ())
  | some e =>
      if e.status_code ∉ [404, 410] then ([req], Except.error e)
      else ([req], Except.ok ())

/-- The event body built inline by `update_timeslot_event`
(source lines 118-162). -/
def timeslot_event_body (timeslot : Timeslot) : EventBody :=
  let event_id := build_timeslot_event_id timeslot
  let conf_data := timeslot.schedule.calendar_meet_data
  let start := (pytzLocalize "America/New_York"
    (timeslot.time_from.replaceTzinfo none)).isoformat
  let «end» := (pytzLocalize "America/New_York"
    (timeslot.time_to.replaceTzinfo none)).isoformat
  { summary := "Ratatoskr: " ++ timeslot.schedule.name
    location := "Atop Yggdrasil"
    description := "Event relayed to you by Ratatoskr 🐭."
    startDateTime := start
    endDateTime := «end»
    conferenceData := conf_data
    attendees := timeslot.reservation_set.map (fun r =>
      { email := r.email, displayName := r.name, comment := r.comment })
    reminders :=
      { useDefault := false
        overrides :=
          [{ method := "email", minutes := 60 * 24 * 2 },
           { method := "email", minutes := 60 * 24 },
           { method := "email", minutes := 10 }] }
    id := event_id }

/-- `update_timeslot_event` (source lines 107-169): delete when there are no
reservations; otherwise execute the patch at the derived id and, when it
raises any `HttpError`, execute the insert with the same body. -/
def update_timeslot_event (env : Env) (timeslot : Timeslot) :
    List Request × Except HttpError Unit :=
  let _client := build_calendar_client timeslot.schedule.owner
  if timeslot.reservation_set.length = 0 then
    delete_timeslot_event env timeslot
  else
    let calendar_id := timeslot.schedule.calendar_id
    let event_id := build_timeslot_event_id timeslot
    let event_body := timeslot_event_body timeslot
    let patchReq := Request.eventsPatch calendar_id event_id 1
      (EventReqBody.full event_body)
    match env.patchErr with
    | none => ([patchReq], Except.ok ())
    | some _ =>
        let insertReq := Request.eventsInsert calendar_id 1
          (EventReqBody.full event_body)
        match env.insertErr with
        | none => ([patchReq, insertReq], Except.ok ())
        | some e2 => ([patchReq, insertReq], Except.error e2)


/-! ## Derived predicates and decoding helpers -/

/-- Is the request an `events().patch`? -/
def Request.isPatch : Request → Bool
  | .eventsPatch _ _ _ _ => true
  | _ => false

/-- Is the request an `events().insert`? -/
def Request.isInsert : Request → Bool
  | .eventsInsert _ _ _ => true
  | _ => false

/-- The full event body carried by an executed patch or insert request. -/
def sentEventBody : Request → Option EventBody
  | .eventsPatch _ _ _ (.full b) => some b
  | .eventsInsert _ _ (.full b) => some b
  | _ => none

/-- A lowercase hexadecimal character: one of `0`-`9` or `a`-`f`. -/
def isLowerHex (c : Char) : Prop :=
  (48 ≤ c.toNat ∧ c.toNat ≤ 57) ∨ (97 ≤ c.toNat ∧ c.toNat ≤ 102)

instance (c : Char) : Decidable (isLowerHex c) := by
  unfold isLowerHex
  infer_instance

/-- The numeric value of a most-significant-first decimal digit string. -/
def digitsToNat (l : List Char) : Nat :=
  l.foldl (fun acc c => acc * 10 + (c.toNat - 48)) 0

/-! ## Concrete fixtures -/

/-- A schedule with id 7. -/
def sched7 : Schedule :=
  { id := 7, owner := 1, name := "Bio", calendar_id := "cal7",
    calendar_meet_data := ConfData.empty }

/-- A reservation fixture. -/
def res1 : Reservation :=
  { email := "ada@example.org", name := "Ada", comment := "hi" }

/-- A timeslot with id 42 under `sched7`, one reservation. -/
def ts42 : Timeslot :=
  { id := 42, schedule := sched7, time_from := ⟨1000, some "UTC"⟩,
    time_to := ⟨2000, some "UTC"⟩, reservation_set := [res1] }

/-- `ts42` with no reservations. -/
def ts42e : Timeslot := { ts42 with reservation_set := [] }

/-- A timeslot with the same (schedule id, timeslot id) pair as `ts42` but
different times, reservations, and schedule fields. -/
def ts42b : Timeslot :=
  { id := 42,
    schedule := { id := 7, owner := 2, name := "Chem", calendar_id := "other",
                  calendar_meet_data := [("conferenceId", "xyz")] },
    time_from := ⟨5000, none⟩, time_to := ⟨6000, none⟩,
    reservation_set := [] }

/-- An environment where every provider call succeeds. -/
def envOk : Env :=
  { patchErr := none, insertErr := none, deleteErr := none,
    createdCalendarId := "c1", createdEventId := "e1",
    createdEventConfData := ConfData.empty, now := 10, now2 := 11,
    uuid := "u1" }

/-- The patch fails with status 500 (not a not-found error). -/
def env500 : Env := { envOk with patchErr := some { status_code := 500 } }

/-- The patch fails with status 404. -/
def env404 : Env := { envOk with patchErr := some { status_code := 404 } }

/-- The event delete fails with status 404. -/
def env404del : Env := { envOk with deleteErr := some { status_code := 404 } }

/-- The event delete fails with status 410. -/
def env410del : Env := { envOk with deleteErr := some { status_code := 410 } }

/-- The event delete fails with status 500. -/
def env500del : Env := { envOk with deleteErr := some { status_code := 500 } }

/-- The provider would issue nonempty conference data for the placeholder. -/
def envConf : Env :=
  { envOk with createdEventConfData := [("conferenceId", "abc")] }

/-! ## Behavioral characterization lemmas (shared helpers) -/

/-- With zero reservations, `update_timeslot_event` is the delete path. -/
theorem update_eq_delete_of_no_res (env : Env) (ts : Timeslot)
    (h : ts.reservation_set.length = 0) :
    update_timeslot_event env ts = delete_timeslot_event env ts := by
  simp [update_timeslot_event, h]

/-- The trace of `delete_timeslot_event` is always the single delete at the
derived id. -/
theorem delete_trace (env : Env) (ts : Timeslot) :
    (delete_timeslot_event env ts).1 =
      [Request.eventsDelete ts.schedule.calendar_id
        (build_timeslot_event_id ts)] := by
  cases hd : env.deleteErr <;> simp [delete_timeslot_event, hd]
  split <;> rfl

/-- With reservations and a successful patch, `update_timeslot_event`
executes exactly the patch. -/
theorem update_patch_ok (env : Env) (ts : Timeslot)
    (h : ts.reservation_set.length ≠ 0) (hp : env.patchErr = none) :
    update_timeslot_event env ts =
      ([Request.eventsPatch ts.schedule.calendar_id
          (build_timeslot_event_id ts) 1
          (EventReqBody.full (timeslot_event_body ts))],
       Except.ok ()) := by
  simp [update_timeslot_event, h, hp, timeslot_event_body,
    build_timeslot_event_id]

/-- With reservations and a failing patch, `update_timeslot_event` executes
the patch and then the insert with the same body. -/
theorem update_patch_err (env : Env) (ts : Timeslot) (e : HttpError)
    (h : ts.reservation_set.length ≠ 0) (hp : env.patchErr = some e) :
    update_timeslot_event env ts =
      ([Request.eventsPatch ts.schedule.calendar_id
          (build_timeslot_event_id ts) 1
          (EventReqBody.full (timeslot_event_body ts)),
        Request.eventsInsert ts.schedule.calendar_id 1
          (EventReqBody.full (timeslot_event_body ts))],
       match env.insertErr with
       | none => Except.ok ()
       | some e2 => Except.error e2) := by
  cases hi : env.insertErr <;>
    simp [update_timeslot_event, h, hp, hi, timeslot_event_body,
      build_timeslot_event_id]

/-- With reservations, the first executed request is always the patch at the
derived id carrying the built body. -/
theorem update_patch_first (env : Env) (ts : Timeslot)
    (h : ts.reservation_set.length ≠ 0) :
    (update_timeslot_event env ts).1.head? =
      some (Request.eventsPatch ts.schedule.calendar_id
        (build_timeslot_event_id ts) 1
        (EventReqBody.full (timeslot_event_body ts))) := by
  cases hp : env.patchErr with
  | none => rw [update_patch_ok env ts h hp]; rfl
  | some e => rw [update_patch_err env ts e h hp]; rfl

/-! ## Claim theorems -/

/-- C2 (counterexample): the claim says a patch failure that is not
not-found propagates uncaught; but with a reservation present and the patch
raising status 500, `update_timeslot_event` swallows the error (returns
normally) and executes the fallback insert. -/
theorem claim_C2_counterexample :
    env500.patchErr = some { status_code := 500 } ∧
    (update_timeslot_event env500 ts42).2 = Except.ok () ∧
    (update_timeslot_event env500 ts42).1 =
      [Request.eventsPatch ts42.schedule.calendar_id
        (build_timeslot_event_id ts42) 1
        (EventReqBody.full (timeslot_event_body ts42)),
       Request.eventsInsert ts42.schedule.calendar_id 1
        (EventReqBody.full (timeslot_event_body ts42))] := by
  refine ⟨rfl, ?_, ?_⟩ <;> rfl

/-- C2 (amended): with at least one reservation, `update_timeslot_event`
first attempts the patch of the event at the derived id; when the patch
raises a provider `HttpError` of ANY status (not-found included), it falls
back to executing the insert with the same body, and the call's outcome is
then the insert's outcome; only the patch success path executes no insert. -/
theorem claim_C2_amended (env : Env) (ts : Timeslot)
    (h : ts.reservation_set.length ≠ 0) :
    (update_timeslot_event env ts).1.head? =
      some (Request.eventsPatch ts.schedule.calendar_id
        (build_timeslot_event_id ts) 1
        (EventReqBody.full (timeslot_event_body ts))) ∧
    (env.patchErr = none →
      update_timeslot_event env ts =
        ([Request.eventsPatch ts.schedule.calendar_id
            (build_timeslot_event_id ts) 1
            (EventReqBody.full (timeslot_event_body ts))], Except.ok ())) ∧
    (∀ e : HttpError, env.patchErr = some e →
      (update_timeslot_event env ts).1 =
        [Request.eventsPatch ts.schedule.calendar_id
          (build_timeslot_event_id ts) 1
          (EventReqBody.full (timeslot_event_body ts)),
         Request.eventsInsert ts.schedule.calendar_id 1
          (EventReqBody.full (timeslot_event_body ts))]) ∧
    (∀ e : HttpError, env.patchErr = some e → env.insertErr = none →
      (update_timeslot_event env ts).2 = Except.ok ()) ∧
    (∀ e e2 : HttpError, env.patchErr = some e → env.insertErr = some e2 →
      (update_timeslot_event env ts).2 = Except.error e2) := by
  refine ⟨update_patch_first env ts h, ?_, ?_, ?_, ?_⟩
  · intro hp
    exact update_patch_ok env ts h hp
  · intro e hp
    rw [update_patch_err env ts e h hp]
  · intro e hp hi
    rw [update_patch_err env ts e h hp, hi]
  · intro e e2 hp hi
    rw [update_patch_err env ts e h hp, hi]

/-- C2 (witness): the amended theorem applied at `env500` and `ts42`. -/
theorem claim_C2_amended_witness :
    (update_timeslot_event env500 ts42).1 =
      [Request.eventsPatch ts42.schedule.calendar_id
        (build_timeslot_event_id ts42) 1
        (EventReqBody.full (timeslot_event_body ts42)),
       Request.eventsInsert ts42.schedule.calendar_id 1
        (EventReqBody.full (timeslot_event_body ts42))] ∧
    (update_timeslot_event env500 ts42).2 = Except.ok () :=
  ⟨(claim_C2_amended env500 ts42 (by decide)).2.2.1
      { status_code := 500 } rfl,
   (claim_C2_amended env500 ts42 (by decide)).2.2.2.1
      { status_code := 500 } rfl rfl⟩

/-- C3: `delete_calendar_for_schedule` builds the calendars-delete request
but never calls `.execute()` on it (unlike every other API call in the
module), so its executed-request trace is empty: no delete is actually
issued to the provider, contradicting the claim that the deletion is
performed.  The claim matches the evident intent; the missing `.execute()`
is a slip in the code. -/
theorem claim_C3_no_request_executed (schedule : Schedule) :
    (delete_calendar_for_schedule schedule).1 = [] := rfl

/-- C4: with zero reservations, `update_timeslot_event` delegates to
`delete_timeslot_event` and returns; no patch and no insert is executed. -/
theorem claim_C4_zero_reservations_delete (env : Env) (ts : Timeslot)
    (h : ts.reservation_set.length = 0) :
    update_timeslot_event env ts = delete_timeslot_event env ts ∧
    ∀ r ∈ (update_timeslot_event env ts).1,
      r.isPatch = false ∧ r.isInsert = false := by
  refine ⟨update_eq_delete_of_no_res env ts h, ?_⟩
  intro r hr
  rw [update_eq_delete_of_no_res env ts h, delete_trace env ts] at hr
  rcases List.mem_singleton.mp hr with rfl
  exact ⟨rfl, rfl⟩

/-- C4 (witness): the theorem applied at `envOk` and the reservation-free
timeslot `ts42e`. -/
theorem claim_C4_witness :
    update_timeslot_event envOk ts42e = delete_timeslot_event envOk ts42e ∧
    ∀ r ∈ (update_timeslot_event envOk ts42e).1,
      r.isPatch = false ∧ r.isInsert = false :=
  claim_C4_zero_reservations_delete envOk ts42e rfl

/-- C5: `delete_timeslot_event` executes exactly one delete, at the derived
id under the schedule's calendar; it returns normally when the provider
succeeds or reports 404 (not found) or 410 (gone), and re-raises the
provider error for every other status. -/
theorem claim_C5_idempotent_delete (env : Env) (ts : Timeslot) :
    (delete_timeslot_event env ts).1 =
      [Request.eventsDelete ts.schedule.calendar_id
        (build_timeslot_event_id ts)] ∧
    (env.deleteErr = none →
      (delete_timeslot_event env ts).2 = Except.ok ()) ∧
    (∀ e : HttpError, env.deleteErr = some e →
      e.status_code = 404 ∨ e.status_code = 410 →
      (delete_timeslot_event env ts).2 = Except.ok ()) ∧
    (∀ e : HttpError, env.deleteErr = some e →
      e.status_code ≠ 404 → e.status_code ≠ 410 →
      (delete_timeslot_event env ts).2 = Except.error e) := by
  refine ⟨delete_trace env ts, ?_, ?_, ?_⟩
  · intro hd
    simp [delete_timeslot_event, hd]
  · intro e hd hs
    rcases hs with hs | hs <;> simp [delete_timeslot_event, hd, hs]
  · intro e hd h4 h10
    simp [delete_timeslot_event, hd, h4, h10]

/-- C5 (witness): the theorem applied at `ts42` with a 404 delete response,
a 410 delete response, and a 500 delete response. -/
theorem claim_C5_witness :
    (delete_timeslot_event env404del ts42).2 = Except.ok () ∧
    (delete_timeslot_event env410del ts42).2 = Except.ok () ∧
    (delete_timeslot_event env500del ts42).2 =
      Except.error { status_code := 500 } :=
  ⟨(claim_C5_idempotent_delete env404del ts42).2.2.1
      { status_code := 404 } rfl (Or.inl rfl),
   (claim_C5_idempotent_delete env410del ts42).2.2.1
      { status_code := 410 } rfl (Or.inr rfl),
   (claim_C5_idempotent_delete env500del ts42).2.2.2
      { status_code := 500 } rfl (by decide) (by decide)⟩

/-- C6: with at least one reservation, the body sent by the patch (the first
executed request) has: start and end equal to the timeslot's naive times
localized in America/New_York; the schedule's stored conference blob
unchanged; attendees equal to the full reservation list with email, display
name and comment; exactly three email reminder overrides of 2 days
(2880 min), 1 day (1440 min) and 10 minutes with default reminders
disabled; and the derived identifier as the event id. -/
theorem claim_C6_event_body (env : Env) (ts : Timeslot)
    (h : ts.reservation_set.length ≠ 0) :
    (update_timeslot_event env ts).1.head? =
      some (Request.eventsPatch ts.schedule.calendar_id
        (build_timeslot_event_id ts) 1
        (EventReqBody.full (timeslot_event_body ts))) ∧
    (timeslot_event_body ts).startDateTime =
      (pytzLocalize "America/New_York"
        (ts.time_from.replaceTzinfo none)).isoformat ∧
    (timeslot_event_body ts).endDateTime =
      (pytzLocalize "America/New_York"
        (ts.time_to.replaceTzinfo none)).isoformat ∧
    (timeslot_event_body ts).conferenceData =
      ts.schedule.calendar_meet_data ∧
    (timeslot_event_body ts).attendees =
      ts.reservation_set.map (fun r =>
        { email := r.email, displayName := r.name, comment := r.comment }) ∧
    (timeslot_event_body ts).reminders =
      { useDefault := false
        overrides :=
          [{ method := "email", minutes := 2880 },
           { method := "email", minutes := 1440 },
           { method := "email", minutes := 10 }] } ∧
    (timeslot_event_body ts).id = build_timeslot_event_id ts :=
  ⟨update_patch_first env ts h, rfl, rfl, rfl, rfl, rfl, rfl⟩

/-- C6 (witness): the theorem applied at `envOk` and `ts42`. -/
theorem claim_C6_witness :
    (update_timeslot_event envOk ts42).1.head? =
      some (Request.eventsPatch ts42.schedule.calendar_id
        (build_timeslot_event_id ts42) 1
        (EventReqBody.full (timeslot_event_body ts42))) ∧
    (timeslot_event_body ts42).conferenceData =
      ts42.schedule.calendar_meet_data ∧
    (timeslot_event_body ts42).id = build_timeslot_event_id ts42 :=
  ⟨(claim_C6_event_body envOk ts42 (by decide)).1,
   (claim_C6_event_body envOk ts42 (by decide)).2.2.2.1,
   (claim_C6_event_body envOk ts42 (by decide)).2.2.2.2.2.2⟩

/-- C7 (counterexample): the claim says the empty conference object is
substituted only when conferencing is unavailable; but even when the
provider issues nonempty conference data for the placeholder event
(`envConf`), `create_calendar_for_schedule` still returns the empty object
(the extraction `event["conferenceData"]` is commented out in the source). -/
theorem claim_C7_counterexample :
    envConf.createdEventConfData = [("conferenceId", "abc")] ∧
    (create_calendar_for_schedule envConf sched7).2.1 = ConfData.empty ∧
    (create_calendar_for_schedule envConf sched7).2.1 ≠
      envConf.createdEventConfData := by
  refine ⟨rfl, rfl, ?_⟩
  intro hc
  exact absurd hc (by decide)

/-- C7 (amended): `create_calendar_for_schedule` inserts the calendar,
inserts a short-lived placeholder event carrying a conference create-request
(the environment's uuid), deletes that placeholder at its provider-issued
id, and returns the pair (conference metadata, calendar id) where the
conference metadata is ALWAYS the empty object, regardless of what the
provider issued. -/
theorem claim_C7_amended (env : Env) (schedule : Schedule) :
    (∃ cb deb,
      (create_calendar_for_schedule env schedule).1 =
        [Request.calendarsInsert cb,
         Request.eventsInsert env.createdCalendarId 1
           (EventReqBody.dummy deb),
         Request.eventsDelete env.createdCalendarId env.createdEventId] ∧
      deb.createRequestId = env.uuid) ∧
    (create_calendar_for_schedule env schedule).2 =
      (ConfData.empty, env.createdCalendarId) :=
  ⟨⟨{ summary := "Ratatoskr: " ++ schedule.name
      description := "Calendar generated by Ratatoskr. Please do not delete."
      timeZone := "UTC"
      allowedConferenceSolutionTypes := ["hangoutsMeet"] },
    { summary := "Ratatoskr Dummy Event"
      location := "Yggdrasil"
      description := "This event was only supposed to exist for a short time. If this event happened to stay, you are free to delete it."
      startDateTime := (make_aware ⟨env.now, none⟩).isoformat
      endDateTime := ((make_aware ⟨env.now2, none⟩).addSeconds 7200).isoformat
      createRequestId := env.uuid
      attendees := []
      remindersUseDefault := false },
    rfl, rfl⟩, rfl⟩

/-- C10: every full event body occurring in a request executed by
`update_timeslot_event` — through the patch or through the fallback
insert — carries the derived identifier in its `id` field, and every
executed patch addresses the event at the derived identifier. -/
theorem claim_C10_bodies_carry_derived_id (env : Env) (ts : Timeslot) :
    (∀ r ∈ (update_timeslot_event env ts).1, ∀ b : EventBody,
      sentEventBody r = some b → b.id = build_timeslot_event_id ts) ∧
    (∀ r ∈ (update_timeslot_event env ts).1,
      ∀ cid eid v p, r = Request.eventsPatch cid eid v p →
        eid = build_timeslot_event_id ts) := by
  have htr : ∀ r ∈ (update_timeslot_event env ts).1,
      r = Request.eventsDelete ts.schedule.calendar_id
            (build_timeslot_event_id ts) ∨
      r = Request.eventsPatch ts.schedule.calendar_id
            (build_timeslot_event_id ts) 1
            (EventReqBody.full (timeslot_event_body ts)) ∨
      r = Request.eventsInsert ts.schedule.calendar_id 1
            (EventReqBody.full (timeslot_event_body ts)) := by
    intro r hr
    by_cases h : ts.reservation_set.length = 0
    · rw [update_eq_delete_of_no_res env ts h, delete_trace env ts] at hr
      exact Or.inl (List.mem_singleton.mp hr)
    · cases hp : env.patchErr with
      | none =>
          rw [update_patch_ok env ts h hp] at hr
          exact Or.inr (Or.inl (List.mem_singleton.mp hr))
      | some e =>
          rw [update_patch_err env ts e h hp] at hr
          simp only [List.mem_cons, List.not_mem_nil, or_false] at hr
          exact Or.inr hr
  constructor
  · intro r hr b hb
    rcases htr r hr with rfl | rfl | rfl
    · simp [sentEventBody] at hb
    · simp only [sentEventBody, Option.some.injEq] at hb
      rw [← hb]
      rfl
    · simp only [sentEventBody, Option.some.injEq] at hb
      rw [← hb]
      rfl
  · intro r hr cid eid v p hpat
    rcases htr r hr with rfl | rfl | rfl
    · exact absurd hpat (by simp)
    · injection hpat with h1 h2 h3 h4
      exact h2.symm
    · exact absurd hpat (by simp)

/-- C10 (witness): the theorem applied at `envOk` and `ts42`, at the patch
request that `update_timeslot_event` executes there. -/
theorem claim_C10_witness :
    (timeslot_event_body ts42).id = build_timeslot_event_id ts42 :=
  (claim_C10_bodies_carry_derived_id envOk ts42).1
    (Request.eventsPatch ts42.schedule.calendar_id
      (build_timeslot_event_id ts42) 1
      (EventReqBody.full (timeslot_event_body ts42)))
    (by rw [update_patch_ok envOk ts42 (by decide) rfl]
        exact List.mem_singleton.mpr rfl)
    (timeslot_event_body ts42) rfl

/-! ## Decimal-rendering lemmas (shared helpers for C1, C8, C9) -/

/-- Digit characters have code points 48-57. -/
theorem digitChar10_toNat : ∀ d < 10, (digitChar10 d).toNat = 48 + d := by
  decide

/-- Every character produced by `natDigitsCore` is a decimal digit
character. -/
theorem natDigitsCore_digit (fuel : Nat) :
    ∀ n, ∀ c ∈ natDigitsCore fuel n, 48 ≤ c.toNat ∧ c.toNat ≤ 57 := by
  induction fuel with
  | zero =>
    intro n c hc
    simp [natDigitsCore] at hc
  | succ fuel ih =>
    intro n c hc
    by_cases h : n < 10
    · simp only [natDigitsCore, if_pos h, List.mem_singleton] at hc
      subst hc
      rw [digitChar10_toNat n h]
      omega
    · simp only [natDigitsCore, if_neg h, List.mem_append,
        List.mem_singleton] at hc
      rcases hc with hc | hc
      · exact ih (n / 10) c hc
      · subst hc
        rw [digitChar10_toNat (n % 10) (Nat.mod_lt n (by omega))]
        omega

/-- Every character of `natDigits n` is a decimal digit character. -/
theorem natDigits_digit (n : Nat) :
    ∀ c ∈ natDigits n, 48 ≤ c.toNat ∧ c.toNat ≤ 57 :=
  natDigitsCore_digit (n + 1) n

/-- Appending one digit multiplies the decoded value by ten. -/
theorem digitsToNat_append (l : List Char) (c : Char) :
    digitsToNat (l ++ [c]) = digitsToNat l * 10 + (c.toNat - 48) := by
  simp [digitsToNat, List.foldl_append]

/-- Decoding inverts `natDigitsCore` when the fuel suffices. -/
theorem digitsToNat_natDigitsCore (fuel : Nat) :
    ∀ n, n < fuel → digitsToNat (natDigitsCore fuel n) = n := by
  induction fuel with
  | zero =>
    intro n hn
    omega
  | succ fuel ih =>
    intro n hn
    by_cases h : n < 10
    · simp only [natDigitsCore, if_pos h, digitsToNat, List.foldl_cons,
        List.foldl_nil]
      rw [digitChar10_toNat n h]
      omega
    · have hdiv : n / 10 < n := Nat.div_lt_self (by omega) (by omega)
      simp only [natDigitsCore, if_neg h]
      rw [digitsToNat_append, ih (n / 10) (by omega),
        digitChar10_toNat (n % 10) (Nat.mod_lt n (by omega))]
      have := Nat.div_add_mod n 10
      omega

/-- Decoding inverts `natDigits`. -/
theorem digitsToNat_natDigits (n : Nat) : digitsToNat (natDigits n) = n :=
  digitsToNat_natDigitsCore (n + 1) n (Nat.lt_succ_self n)

/-- `pyStr` is injective: different integers render differently. -/
theorem pyStr_inj {m n : Nat} (h : pyStr m = pyStr n) : m = n := by
  have hd : natDigits m = natDigits n := by
    have := congrArg String.data h
    simpa [pyStr] using this
  have := congrArg digitsToNat hd
  rwa [digitsToNat_natDigits, digitsToNat_natDigits] at this

/-- Splitting at a non-digit separator: two digit-prefixed decompositions at
the same separator agree componentwise. -/
theorem split_at_sep (sep : Char)
    (hsep : ¬(48 ≤ sep.toNat ∧ sep.toNat ≤ 57)) :
    ∀ (a c b d : List Char),
      (∀ x ∈ a, 48 ≤ x.toNat ∧ x.toNat ≤ 57) →
      (∀ x ∈ c, 48 ≤ x.toNat ∧ x.toNat ≤ 57) →
      a ++ sep :: b = c ++ sep :: d → a = c ∧ b = d := by
  intro a
  induction a with
  | nil =>
    intro c b d _ hc heq
    cases c with
    | nil =>
      simp only [List.nil_append, List.cons.injEq] at heq
      exact ⟨rfl, heq.2⟩
    | cons y ys =>
      simp only [List.nil_append, List.cons_append, List.cons.injEq] at heq
      exact absurd (heq.1 ▸ hc y (List.mem_cons_self y ys)) hsep
  | cons x xs ih =>
    intro c b d ha hc heq
    cases c with
    | nil =>
      simp only [List.cons_append, List.nil_append, List.cons.injEq] at heq
      exact absurd (heq.1.symm ▸ ha x (List.mem_cons_self x xs)) hsep
    | cons y ys =>
      simp only [List.cons_append, List.cons.injEq] at heq
      obtain ⟨hxy, htl⟩ := heq
      obtain ⟨h1, h2⟩ := ih ys b d
        (fun z hz => ha z (List.mem_cons_of_mem x hz))
        (fun z hz => hc z (List.mem_cons_of_mem y hz)) htl
      exact ⟨by rw [hxy, h1], h2⟩

/-- The character data of the interpolated id pattern. -/
theorem fmt_data (a b : String) :
    (calendarTimeslotEventIdFmt a b).data =
      a.data ++ '@' :: (b.data ++ '#' :: CALENDAR_ID_SUFFIX.data) := by
  simp [calendarTimeslotEventIdFmt, String.data_append]

/-- The interpolated pattern is injective in the rendered id pair. -/
theorem fmt_pyStr_inj {tid sid tid' sid' : Nat}
    (h : calendarTimeslotEventIdFmt (pyStr tid) (pyStr sid) =
      calendarTimeslotEventIdFmt (pyStr tid') (pyStr sid')) :
    tid = tid' ∧ sid = sid' := by
  have hdata := congrArg String.data h
  rw [fmt_data, fmt_data] at hdata
  have hat : ¬(48 ≤ '@'.toNat ∧ '@'.toNat ≤ 57) := by decide
  have hhash : ¬(48 ≤ '#'.toNat ∧ '#'.toNat ≤ 57) := by decide
  have hdig : ∀ n : Nat, ∀ x ∈ (pyStr n).data,
      48 ≤ x.toNat ∧ x.toNat ≤ 57 := by
    intro n x hx
    exact natDigits_digit n x (by simpa [pyStr] using hx)
  obtain ⟨h1, h2⟩ := split_at_sep '@' hat (pyStr tid).data (pyStr tid').data
    ((pyStr sid).data ++ '#' :: CALENDAR_ID_SUFFIX.data)
    ((pyStr sid').data ++ '#' :: CALENDAR_ID_SUFFIX.data)
    (hdig tid) (hdig tid') hdata
  obtain ⟨h3, -⟩ := split_at_sep '#' hhash (pyStr sid).data (pyStr sid').data
    CALENDAR_ID_SUFFIX.data CALENDAR_ID_SUFFIX.data
    (hdig sid) (hdig sid') h2
  exact ⟨pyStr_inj (String.ext_iff.mpr h1), pyStr_inj (String.ext_iff.mpr h3)⟩

/-! ## Hex-output lemmas (shared helpers for C1, C8, C9) -/

/-- Every nibble of a word is below 16. -/
theorem wordNibbles_lt (w : Nat) : ∀ x ∈ wordNibbles w, x < 16 := by
  intro x hx
  simp only [wordNibbles, List.mem_cons, List.not_mem_nil, or_false] at hx
  rcases hx with rfl | rfl | rfl | rfl | rfl | rfl | rfl | rfl <;>
    exact Nat.mod_lt _ (by omega)

/-- Every nibble of a digest state is below 16. -/
theorem stateNibbles_lt (st : SHA1State) : ∀ x ∈ stateNibbles st, x < 16 := by
  intro x hx
  simp only [stateNibbles, List.mem_append, or_assoc] at hx
  rcases hx with hx | hx | hx | hx | hx <;> exact wordNibbles_lt _ x hx

/-- Hexadecimal digit characters are already lowercase. -/
theorem hexDigitChar_toLower : ∀ n < 16,
    Char.toLower (hexDigitChar n) = hexDigitChar n := by
  decide

/-- Hexadecimal digit characters are lowercase hex characters. -/
theorem hexDigitChar_isLowerHex : ∀ n < 16, isLowerHex (hexDigitChar n) := by
  decide

/-- Lowercasing a SHA-1 hexdigest changes nothing. -/
theorem pyLower_sha1Hexdigest (m : List Nat) :
    pyLower (sha1Hexdigest m) = sha1Hexdigest m := by
  unfold pyLower sha1Hexdigest
  simp only [List.map_map]
  congr 1
  apply List.map_congr_left
  intro x hx
  exact hexDigitChar_toLower x (stateNibbles_lt _ x hx)

/-- `hashify` is exactly the SHA-1 hexdigest of the ASCII bytes (the final
`.lower()` is the identity on the digest). -/
theorem hashify_eq_sha1 (s : String) :
    hashify s = sha1Hexdigest (asciiBytes s) :=
  pyLower_sha1Hexdigest (asciiBytes s)

/-- A digest state always yields exactly forty nibbles. -/
theorem stateNibbles_length (st : SHA1State) :
    (stateNibbles st).length = 40 := by
  simp [stateNibbles, wordNibbles]

/-- `hashify` always returns a string of length 40. -/
theorem hashify_length (s : String) : (hashify s).length = 40 := by
  rw [hashify_eq_sha1]
  simp [sha1Hexdigest, String.length, stateNibbles_length]

/-- Every character of a `hashify` output is a lowercase hex character. -/
theorem hashify_chars (s : String) :
    ∀ c ∈ (hashify s).data, isLowerHex c := by
  rw [hashify_eq_sha1]
  intro c hc
  simp only [sha1Hexdigest, List.mem_map] at hc
  obtain ⟨x, hx, rfl⟩ := hc
  exact hexDigitChar_isLowerHex x (stateNibbles_lt _ x hx)

/-- C1: for every timeslot, the derived identifier is the lowercase hex
SHA-1 of the ASCII string `"{timeslot_id}@{schedule_id}#ratatoskr.techhigh.us"`;
in particular for timeslot id 42 under schedule id 7 it equals the SHA-1
digest of `"42@7#ratatoskr.techhigh.us"`, namely
`6391ce73031e61bb257aca03be8a7c96a46f0047`. -/
theorem claim_C1_id_is_sha1_of_pattern (ts : Timeslot) :
    build_timeslot_event_id ts =
      pyLower (sha1Hexdigest (asciiBytes
        (pyStr ts.id ++ "@" ++ pyStr ts.schedule.id ++
          "#ratatoskr.techhigh.us"))) ∧
    (ts.id = 42 → ts.schedule.id = 7 →
      build_timeslot_event_id ts =
        "6391ce73031e61bb257aca03be8a7c96a46f0047") := by
  constructor
  · show hashify _ = hashify _
    congr 1
    apply String.ext_iff.mpr
    rw [fmt_data]
    have h1 : "@".data = ['@'] := rfl
    have h2 : "#ratatoskr.techhigh.us".data =
        '#' :: CALENDAR_ID_SUFFIX.data := rfl
    simp [String.data_append, h1, h2]
    rfl
  · intro h42 h7
    show hashify (calendarTimeslotEventIdFmt (pyStr ts.id)
      (pyStr ts.schedule.id)) = _
    rw [h42, h7]
    set_option maxRecDepth 100000 in decide

/-- C1 (witness): the theorem applied at `ts42` (timeslot id 42,
schedule id 7). -/
theorem claim_C1_witness :
    build_timeslot_event_id ts42 =
      "6391ce73031e61bb257aca03be8a7c96a46f0047" :=
  (claim_C1_id_is_sha1_of_pattern ts42).2 rfl rfl

/-- C8: the derived identifier is always a string of exactly 40 lowercase
hexadecimal characters, and it depends only on the (timeslot id,
schedule id) pair, so repeated calls on the same pair return the identical
identifier. -/
theorem claim_C8_forty_hex_stable (ts : Timeslot) :
    (build_timeslot_event_id ts).length = 40 ∧
    (∀ c ∈ (build_timeslot_event_id ts).data, isLowerHex c) ∧
    (∀ ts' : Timeslot, ts.id = ts'.id → ts.schedule.id = ts'.schedule.id →
      build_timeslot_event_id ts = build_timeslot_event_id ts') := by
  refine ⟨hashify_length _, hashify_chars _, ?_⟩
  intro ts' h1 h2
  unfold build_timeslot_event_id
  rw [h1, h2]

/-- C8 (witness): the theorem applied at `ts42`, at the first digest
character `'6'`, and at `ts42b`, which shares the id pair (42, 7) with
`ts42` but differs in every other field. -/
theorem claim_C8_witness :
    isLowerHex '6' ∧
    build_timeslot_event_id ts42 = build_timeslot_event_id ts42b :=
  ⟨(claim_C8_forty_hex_stable ts42).2.1 '6'
      (by set_option maxRecDepth 100000 in decide),
   (claim_C8_forty_hex_stable ts42).2.2 ts42b rfl rfl⟩

/-- C9: the pre-hash strings `"{timeslot_id}@{schedule_id}#..."` are
injective in the (timeslot id, schedule id) pair of integers, so equal
derived identifiers for distinct pairs would exhibit a SHA-1 collision:
two distinct strings with equal SHA-1 hexdigests. -/
theorem claim_C9_prehash_injective (tid sid tid' sid' : Nat) :
    (calendarTimeslotEventIdFmt (pyStr tid) (pyStr sid) =
        calendarTimeslotEventIdFmt (pyStr tid') (pyStr sid') →
      tid = tid' ∧ sid = sid') ∧
    ((tid, sid) ≠ (tid', sid') →
      hashify (calendarTimeslotEventIdFmt (pyStr tid) (pyStr sid)) =
        hashify (calendarTimeslotEventIdFmt (pyStr tid') (pyStr sid')) →
      ∃ s s' : String, s ≠ s' ∧
        sha1Hexdigest (asciiBytes s) = sha1Hexdigest (asciiBytes s')) := by
  refine ⟨fmt_pyStr_inj, ?_⟩
  intro hne hcol
  refine ⟨calendarTimeslotEventIdFmt (pyStr tid) (pyStr sid),
    calendarTimeslotEventIdFmt (pyStr tid') (pyStr sid'), ?_, ?_⟩
  · intro heq
    obtain ⟨e1, e2⟩ := fmt_pyStr_inj heq
    exact hne (by rw [e1, e2])
  · rw [← hashify_eq_sha1, ← hashify_eq_sha1]
    exact hcol

/-- C9 (witness): the injectivity direction applied at the concrete pattern
strings of the pair (42, 7), the hypothesis discharged by evaluation. -/
theorem claim_C9_witness : (42 : Nat) = 42 ∧ (7 : Nat) = 7 :=
  (claim_C9_prehash_injective 42 7 42 7).1 (by decide)
